import Mathlib

/-!
Shallow embedding of `frontdoor_ipgroup_updater/main.py`.

The program keeps an Azure IP-group resource in sync with the published
Azure Front Door address list.  We embed each function of `main.py` as an
executable Lean definition:

* `ip_network` models CPython's `ipaddress.ip_network(s)` on a string
  argument (strict mode, the default): the result is an IPv4 network, an
  IPv6 network, or `none` (a raised `ValueError`).
* `get_auth_token`, `filter_ip_versions`, `get_frontdoor_ips`,
  `update_azure_ip_group` and `main` are translated line by line; the
  external HTTP world is passed in as explicit environments, log lines become
  `LogEvent` values, issued requests become `HttpEvent` values, and
  `sys.exit` / uncaught exceptions become `Outcome` values.
-/

namespace FrontdoorUpdater

/-- Is `c` an ASCII decimal digit?  (CPython's octet / prefix parsing only
accepts ASCII digits.) -/
def isDecDigit (c : Char) : Bool :=
  '0' ≤ c && c ≤ '9'

/-- Decimal value of a list of ASCII digits. -/
def decimalValue (cs : List Char) : Nat :=
  cs.foldl (fun a c => a * 10 + (c.toNat - 48)) 0

/-- Value of one hexadecimal digit, if `c` is one. -/
def hexDigitVal (c : Char) : Option Nat :=
  if '0' ≤ c ∧ c ≤ '9' then some (c.toNat - 48)
  else if 'a' ≤ c ∧ c ≤ 'f' then some (c.toNat - 87)
  else if 'A' ≤ c ∧ c ≤ 'F' then some (c.toNat - 55)
  else none

/-- `str.split(sep)` for a one-character separator. -/
def splitOnChar (sep : Char) : List Char → List (List Char)
  | [] => [[]]
  | c :: rest =>
      match splitOnChar sep rest with
      | g :: gs => if c = sep then [] :: g :: gs else (c :: g) :: gs
      | [] => if c = sep then [[], []] else [[c]]

/-- `str.split("::")`: non-overlapping, left to right. -/
def splitOnDoubleColon : List Char → List (List Char)
  | ':' :: ':' :: rest => [] :: splitOnDoubleColon rest
  | c :: rest =>
      match splitOnDoubleColon rest with
      | g :: gs => (c :: g) :: gs
      | [] => [[c]]
  | [] => [[]]

/-- CPython `_parse_octet`: 1–3 ASCII digits, no leading zero, value ≤ 255. -/
def parseOctet (cs : List Char) : Option Nat :=
  if cs.isEmpty then none
  else if 3 < cs.length then none
  else if !(cs.all isDecDigit) then none
  else if 1 < cs.length ∧ cs.headD '0' = '0' then none
  else if 255 < decimalValue cs then none
  else some (decimalValue cs)

/-- Parse every dotted group as an octet. -/
def parseOctets : List (List Char) → Option (List Nat)
  | [] => some []
  | g :: rest =>
      match parseOctet g, parseOctets rest with
      | some v, some vs => some (v :: vs)
      | _, _ => none

/-- An IPv4 address: exactly four octets.  Result is the 32-bit value. -/
def parseIPv4Addr (cs : List Char) : Option Nat :=
  match parseOctets (splitOnChar '.' cs) with
  | some [a, b, c, d] => some (((a * 256 + b) * 256 + c) * 256 + d)
  | _ => none

/-- Left-to-right hexadecimal accumulation. -/
def hexValueAux : List Char → Nat → Option Nat
  | [], acc => some acc
  | c :: rest, acc =>
      match hexDigitVal c with
      | some d => hexValueAux rest (acc * 16 + d)
      | none => none

/-- CPython `_parse_hextet`: 1–4 hexadecimal digits. -/
def parseHextet (cs : List Char) : Option Nat :=
  if cs.isEmpty then none
  else if 4 < cs.length then none
  else hexValueAux cs 0

/-- Parse colon groups, no embedded IPv4 tail allowed. -/
def parseHextetsPlain : List (List Char) → Option (List Nat)
  | [] => some []
  | g :: rest =>
      match parseHextet g, parseHextetsPlain rest with
      | some h, some hs => some (h :: hs)
      | _, _ => none

/-- Parse colon groups where only the final group may be an embedded
dotted-quad IPv4 address (contributing two hextets). -/
def parseHextets : List (List Char) → Option (List Nat)
  | [] => some []
  | [g] =>
      if g.contains '.' then
        match parseIPv4Addr g with
        | some v => some [v / 65536, v % 65536]
        | none => none
      else
        match parseHextet g with
        | some h => some [h]
        | none => none
  | g :: rest =>
      match parseHextet g, parseHextets rest with
      | some h, some hs => some (h :: hs)
      | _, _ => none

/-- 128-bit value of a full list of eight hextets. -/
def hextetsVal (hs : List Nat) : Nat :=
  hs.foldl (fun a h => a * 65536 + h) 0

/-- An IPv6 address: at most one `::`, eight hextets after expansion.
Result is the 128-bit value. -/
def parseIPv6Addr (cs : List Char) : Option Nat :=
  match splitOnDoubleColon cs with
  | [one] =>
      match parseHextets (splitOnChar ':' one) with
      | some hs => if hs.length = 8 then some (hextetsVal hs) else none
      | none => none
  | [l, r] =>
      let lparts := if l.isEmpty then [] else splitOnChar ':' l
      let rparts := if r.isEmpty then [] else splitOnChar ':' r
      match parseHextetsPlain lparts, parseHextets rparts with
      | some lh, some rh =>
          if lh.length + rh.length ≤ 7 then
            some (hextetsVal (lh ++ List.replicate (8 - (lh.length + rh.length)) 0 ++ rh))
          else none
      | _, _ => none
  | _ => none

/-- A CIDR length: ASCII digits, bounded by the family's bit width. -/
def parseCidrLen (cs : List Char) (maxLen : Nat) : Option Nat :=
  if cs.isEmpty then none
  else if !(cs.all isDecDigit) then none
  else if decimalValue cs ≤ maxLen then some (decimalValue cs) else none

/-- Result of a successful `ipaddress.ip_network` call: an `IPv4Network`
or an `IPv6Network` object (address value and CIDR length). -/
inductive PyNetwork where
  | v4 (addr : Nat) (plen : Nat)
  | v6 (addr : Nat) (plen : Nat)
deriving DecidableEq

/-- `type(net) == IPv4Network`. -/
def isIPv4Network : PyNetwork → Bool
  | .v4 _ _ => true
  | _ => false

/-- `type(net) == IPv6Network`. -/
def isIPv6Network : PyNetwork → Bool
  | .v6 _ _ => true
  | _ => false

/-- CPython `ipaddress.ip_network(s)` on a string, strict mode (the
default): try `IPv4Network(s)`, then `IPv6Network(s)`; `none` models the
`ValueError` raised when both fail (including host bits set below the
mask, which strict mode rejects). -/
def ip_network (s : String) : Option PyNetwork :=
  match splitOnChar '/' s.data with
  | [addr] =>
      match parseIPv4Addr addr with
      | some a => some (.v4 a 32)
      | none =>
          match parseIPv6Addr addr with
          | some a => some (.v6 a 128)
          | none => none
  | [addr, plen] =>
      match parseIPv4Addr addr with
      | some a =>
          match parseCidrLen plen 32 with
          | some p => if a % 2 ^ (32 - p) = 0 then some (.v4 a p) else none
          | none => none
      | none =>
          match parseIPv6Addr addr, parseCidrLen plen 128 with
          | some a, some p => if a % 2 ^ (128 - p) = 0 then some (.v6 a p) else none
          | _, _ => none
  | _ => none

/-- A JSON value, as produced by `resp.json()` / `json.loads`. -/
inductive Json where
  | null
  | bool (b : Bool)
  | num (n : Int)
  | str (s : String)
  | arr (xs : List Json)
  | obj (fields : List (String × Json))

/-- Python dict lookup on an association list. -/
def assocGet {α : Type} : List (String × α) → String → Option α
  | [], _ => none
  | (k, v) :: rest, key => if k = key then some v else assocGet rest key

/-- Python subscript `j[key]`: `none` models the `KeyError` (missing key)
or `TypeError` (not a dict) the interpreter would raise. -/
def jsonIndex (j : Json) (key : String) : Option Json :=
  match j with
  | .obj fields => assocGet fields key
  | _ => none

/-- Python `v == target` where `target` is a string: true only when `v`
is that string; a non-string compares unequal without raising. -/
def jsonEqStr (v : Json) (target : String) : Bool :=
  match v with
  | .str s => s = target
  | _ => false

/-- `list(j)` on a JSON array whose elements are strings. -/
def asStringList : Json → Option (List String)
  | Json.arr xs => allStrings xs
  | _ => none
where
  allStrings : List Json → Option (List String)
    | [] => some []
    | Json.str s :: rest =>
        match allStrings rest with
        | some l => some (s :: l)
        | none => none
    | _ :: _ => none

/-- One `log.warning` call, with its `extra` payload. -/
inductive LogEvent where
  | authFailure (error errorDescription : String)
  | fetchFailure (excInfo : String)
  | unknownNetwork (network : String)
  | splitSummary (ipv4 ipv6 : List String)
  | pulledMetadata (addresses tags location : Json)
  | dryRunSkip
  | submitting (ips : List String)
  | updateSuccess
  | updateFailure (excInfo : String)
  | belowThreshold (threshold : Nat)

/-- One issued HTTP request. -/
inductive HttpEvent where
  | get (url : String)
  | put (url : String) (body : Json)

/-- How a call tears down the process: an explicit `sys.exit(code)`, or an
exception that nothing catches. -/
inductive Outcome where
  | exited (code : Nat)
  | raised (excName : String)
deriving DecidableEq

/-- Process exit status produced by an `Outcome`: CPython terminates with
status 1 when an exception reaches the top level uncaught. -/
def Outcome.processExitCode : Outcome → Nat
  | .exited c => c
  | .raised _ => 1

/-- The values `settings` supplies (loaded from the environment). -/
structure Settings where
  tenant_id : String
  application_id : String
  application_secret : String
  subscription_id : String
  resource_group_name : String
  ip_group_name : String
  minimum_acceptable_v4_networks : Nat

/-- `_get_auth_token`: the MSAL response is a dict; if it has an
`access_token` it is returned, otherwise the provider's `error` and
`error_description` are logged and the process exits 1.  (Indexing a
response that carries neither raises `KeyError`.) -/
def get_auth_token (tokenResponse : List (String × String)) :
    List LogEvent × Except Outcome String :=
  match assocGet tokenResponse "access_token" with
  | some t => ([], Except.ok t)
  | none =>
      match assocGet tokenResponse "error" with
      | none => ([], Except.error (Outcome.raised "KeyError"))
      | some e =>
          match assocGet tokenResponse "error_description" with
          | none => ([], Except.error (Outcome.raised "KeyError"))
          | some d => ([LogEvent.authFailure e d], Except.error (Outcome.exited 1))

/-- The buckets `_filter_ip_versions` returns
(`{"ipv4": [...], "ipv6": [...]}`). -/
structure FilterResult where
  ipv4 : List String
  ipv6 : List String
deriving DecidableEq

/-- The `for network in networks` loop of `_filter_ip_versions`, with the
two accumulator lists.  A `none` result models the `ValueError` raised by
`ip_network` escaping the loop (nothing in the source catches it); the
log list holds the warnings emitted before that point. -/
def filterLoop : List String → List String → List String →
    List LogEvent × Option (List String × List String)
  | [], ipv4, ipv6 => ([], some (ipv4, ipv6))
  | network :: rest, ipv4, ipv6 =>
      match ip_network network with
      | none => ([], none)
      | some net =>
          if isIPv4Network net then filterLoop rest (ipv4 ++ [network]) ipv6
          else if isIPv6Network net then filterLoop rest ipv4 (ipv6 ++ [network])
          else
            match filterLoop rest ipv4 ipv6 with
            | (logs, r) => (LogEvent.unknownNetwork network :: logs, r)

/-- `_filter_ip_versions`: run the loop, then log the summary line and
return the two buckets. -/
def filter_ip_versions (networks : List String) :
    List LogEvent × Option FilterResult :=
  match filterLoop networks [] [] with
  | (logs, none) => (logs, none)
  | (logs, some (v4, v6)) => (logs ++ [LogEvent.splitSummary v4 v6], some ⟨v4, v6⟩)

/-- An HTTP response: `ok` is whether `raise_for_status` passes. -/
structure HttpResponse where
  ok : Bool
  content : String
deriving DecidableEq

/-- The external world `_get_frontdoor_ips` talks to.  Each field stands
for one library call: the landing-page GET, `soup.find` (the attrs of the
located anchor, if any), the payload GET, and `json.loads`.  An
`Except.error` / `none` models that call raising. -/
structure FetchEnv where
  pageGet : Except String HttpResponse
  findAnchor : String → Option (List (String × String))
  jsonGet : String → Except String HttpResponse
  parseJson : String → Except String Json

/-- The landing page URL. -/
def downloadPage : String :=
  "https://www.microsoft.com/en-us/download/confirmation.aspx?id=56519"

/-- The id of the section the fetcher consumes. -/
def frontdoorSectionId : String := "AzureFrontDoor.Frontend"

/-- `next(section for section in data["values"] if section["id"] == ...)`:
first match wins; a non-dict element or a missing `id` raises inside the
generator; exhaustion raises `StopIteration`.  All of those are caught by
the enclosing `try`. -/
def findSection : List Json → Except String Json
  | [] => Except.error "StopIteration"
  | s :: rest =>
      match s with
      | Json.obj fields =>
          match assocGet fields "id" with
          | none => Except.error "KeyError"
          | some v =>
              if jsonEqStr v frontdoorSectionId then Except.ok (Json.obj fields)
              else findSection rest
      | _ => Except.error "TypeError"

/-- The body of the `try` block in `_get_frontdoor_ips`: everything up to
and including locating the Front Door section.  Returns the requests it
issued and either the section or the exception text. -/
def getFrontdoorIpsTry (env : FetchEnv) : List HttpEvent × Except String Json :=
  match env.pageGet with
  | Except.error e => ([HttpEvent.get downloadPage], Except.error e)
  | Except.ok resp =>
      if !resp.ok then ([HttpEvent.get downloadPage], Except.error "HTTPError")
      else
        match env.findAnchor resp.content with
        | none => ([HttpEvent.get downloadPage], Except.error "AttributeError")
        | some anchorAttrs =>
            match assocGet anchorAttrs "href" with
            | none => ([HttpEvent.get downloadPage], Except.error "KeyError")
            | some json_file =>
                match env.jsonGet json_file with
                | Except.error e =>
                    ([HttpEvent.get downloadPage, HttpEvent.get json_file], Except.error e)
                | Except.ok fileResp =>
                    match env.parseJson fileResp.content with
                    | Except.error e =>
                        ([HttpEvent.get downloadPage, HttpEvent.get json_file], Except.error e)
                    | Except.ok data =>
                        match jsonIndex data "values" with
                        | none =>
                            ([HttpEvent.get downloadPage, HttpEvent.get json_file],
                             Except.error "KeyError")
                        | some (Json.arr sections) =>
                            ([HttpEvent.get downloadPage, HttpEvent.get json_file],
                             findSection sections)
                        | some _ =>
                            ([HttpEvent.get downloadPage, HttpEvent.get json_file],
                             Except.error "TypeError")

/-- `_get_frontdoor_ips`: any exception inside the `try` is logged and
turns into `exit(1)`; the final `list(frontdoor["properties"]["addressPrefixes"])`
sits outside the `try`, so indexing failures there propagate uncaught. -/
def get_frontdoor_ips (env : FetchEnv) :
    List HttpEvent × List LogEvent × Except Outcome (List String) :=
  match getFrontdoorIpsTry env with
  | (events, Except.error e) =>
      (events, [LogEvent.fetchFailure e], Except.error (Outcome.exited 1))
  | (events, Except.ok frontdoor) =>
      match jsonIndex frontdoor "properties" with
      | none => (events, [], Except.error (Outcome.raised "KeyError"))
      | some props =>
          match jsonIndex props "addressPrefixes" with
          | none => (events, [], Except.error (Outcome.raised "KeyError"))
          | some ap =>
              match asStringList ap with
              | none => (events, [], Except.error (Outcome.raised "TypeError"))
              | some l => (events, [], Except.ok l)

/-- The Azure side `update_azure_ip_group` talks to: the parsed body of
the GET on the resource (or the exception the GET / `.json()` raised),
and the response to a PUT with a given body (or the exception it
raised). -/
structure AzureEnv where
  getResp : Except String Json
  putResp : Json → Except String HttpResponse

/-- The fully-qualified resource URL built from settings. -/
def resourceUrl (s : Settings) : String :=
  "https://management.azure.com/subscriptions/" ++ s.subscription_id ++
    "/resourceGroups/" ++ s.resource_group_name ++
    "/providers/Microsoft.Network/ipGroups/" ++ s.ip_group_name ++
    "?api-version=2022-01-01"

/-- The JSON body the PUT carries: the tags and location just read, and
the new address list. -/
def putBody (tags location : Json) (addresses : List String) : Json :=
  Json.obj [("tags", tags), ("location", location),
            ("properties", Json.obj [("ipAddresses", Json.arr (addresses.map Json.str))])]

/-- What a call to `update_azure_ip_group` did: requests issued, log
lines emitted, and whether it returned or tore the process down. -/
structure UpdateResult where
  http : List HttpEvent
  logs : List LogEvent
  outcome : Except Outcome Unit

/-- `update_azure_ip_group`: GET the resource (failures and missing keys
propagate — only the PUT sits in a `try`), log its metadata, stop if
`dry_run`, otherwise PUT the new list with tags and location carried
forward; any PUT failure (including non-2xx via `raise_for_status`) is
caught and logged, and the function still returns normally. -/
def update_azure_ip_group (s : Settings) (env : AzureEnv) (auth_token : String)
    (addresses : List String) (dry_run : Bool) : UpdateResult :=
  let url := resourceUrl s
  match env.getResp with
  | Except.error e => ⟨[HttpEvent.get url], [], Except.error (Outcome.raised e)⟩
  | Except.ok existing_metadata =>
      match jsonIndex existing_metadata "properties" with
      | none => ⟨[HttpEvent.get url], [], Except.error (Outcome.raised "KeyError")⟩
      | some props =>
          match jsonIndex props "ipAddresses" with
          | none => ⟨[HttpEvent.get url], [], Except.error (Outcome.raised "KeyError")⟩
          | some existingAddresses =>
              match jsonIndex existing_metadata "tags" with
              | none => ⟨[HttpEvent.get url], [], Except.error (Outcome.raised "KeyError")⟩
              | some tags =>
                  match jsonIndex existing_metadata "location" with
                  | none => ⟨[HttpEvent.get url], [], Except.error (Outcome.raised "KeyError")⟩
                  | some location =>
                      let logs0 := [LogEvent.pulledMetadata existingAddresses tags location]
                      if dry_run then
                        ⟨[HttpEvent.get url], logs0 ++ [LogEvent.dryRunSkip], Except.ok ()⟩
                      else
                        let body := putBody tags location addresses
                        let logs1 := logs0 ++ [LogEvent.submitting addresses]
                        match env.putResp body with
                        | Except.error e =>
                            ⟨[HttpEvent.get url, HttpEvent.put url body],
                             logs1 ++ [LogEvent.updateFailure e], Except.ok ()⟩
                        | Except.ok resp =>
                            if resp.ok then
                              ⟨[HttpEvent.get url, HttpEvent.put url body],
                               logs1 ++ [LogEvent.updateSuccess], Except.ok ()⟩
                            else
                              ⟨[HttpEvent.get url, HttpEvent.put url body],
                               logs1 ++ [LogEvent.updateFailure "HTTPError"], Except.ok ()⟩

/-- The whole external world of one run. -/
structure Env where
  tokenResponse : List (String × String)
  fetch : FetchEnv
  azure : AzureEnv

/-- What one run did: requests issued to the vendor endpoints and to the
Azure resource, log lines, and the terminal outcome (reaching the end of
`main` is process exit 0). -/
structure RunResult where
  fetchHttp : List HttpEvent
  azureHttp : List HttpEvent
  logs : List LogEvent
  outcome : Outcome

/-- `main`: parse `--dry-run`, get a token, fetch the list, classify it,
and either update (when strictly more v4 networks than the threshold were
found) or warn and exit 1. -/
def main (s : Settings) (env : Env) (dryRunFlag : Bool) : RunResult :=
  let dry_run := if dryRunFlag then true else false
  match get_auth_token env.tokenResponse with
  | (logsA, Except.error o) => ⟨[], [], logsA, o⟩
  | (logsA, Except.ok auth_token) =>
      match get_frontdoor_ips env.fetch with
      | (httpF, logsF, Except.error o) => ⟨httpF, [], logsA ++ logsF, o⟩
      | (httpF, logsF, Except.ok frontdoor_ips) =>
          match filter_ip_versions frontdoor_ips with
          | (logsC, none) => ⟨httpF, [], logsA ++ logsF ++ logsC, Outcome.raised "ValueError"⟩
          | (logsC, some fv) =>
              if fv.ipv4.length > s.minimum_acceptable_v4_networks then
                let r := update_azure_ip_group s env.azure auth_token fv.ipv4 dry_run
                ⟨httpF, r.http, logsA ++ logsF ++ logsC ++ r.logs,
                 match r.outcome with
                 | Except.ok _ => Outcome.exited 0
                 | Except.error o => o⟩
              else
                ⟨httpF, [],
                 logsA ++ logsF ++ logsC ++
                   [LogEvent.belowThreshold s.minimum_acceptable_v4_networks],
                 Outcome.exited 1⟩

/-! ### Concrete sample worlds used by witnesses and counterexamples -/

/-- A fixed settings value (threshold 0). -/
def sampleSettings : Settings :=
  ⟨"tenant", "app", "secret", "sub", "rg", "fd-ips", 0⟩

/-- The same settings with threshold 5. -/
def strictSettings : Settings :=
  ⟨"tenant", "app", "secret", "sub", "rg", "fd-ips", 5⟩

/-- A vendor payload section for `AzureFrontDoor.Frontend` with one v4
and one v6 entry. -/
def sampleSection : Json :=
  Json.obj [("id", Json.str "AzureFrontDoor.Frontend"),
            ("properties", Json.obj [("addressPrefixes",
              Json.arr [Json.str "1.0.0.0/8", Json.str "2001:db8::/32"])])]

/-- A fetch environment on which every step of the chain succeeds. -/
def sampleFetchEnv : FetchEnv where
  pageGet := Except.ok ⟨true, "landing page"⟩
  findAnchor := fun _ => some [("data-bi-id", "downloadretry"), ("href", "https://download.example/ips.json")]
  jsonGet := fun _ => Except.ok ⟨true, "payload"⟩
  parseJson := fun _ => Except.ok (Json.obj [("values", Json.arr [sampleSection])])

/-- The existing resource, as in the spec's metadata example. -/
def sampleMetadata : Json :=
  Json.obj [("tags", Json.obj [("env", Json.str "prod")]),
            ("location", Json.str "eastus"),
            ("properties", Json.obj [("ipAddresses", Json.arr [Json.str "1.2.3.0/24"])])]

/-- An Azure side whose GET and PUT both succeed. -/
def sampleAzureEnv : AzureEnv where
  getResp := Except.ok sampleMetadata
  putResp := fun _ => Except.ok ⟨true, ""⟩

/-- An Azure side whose GET raises a connection error. -/
def azureEnvGetFails : AzureEnv where
  getResp := Except.error "ConnectionError"
  putResp := fun _ => Except.ok ⟨true, ""⟩

/-- An Azure side whose GET succeeds and whose PUT raises. -/
def azureEnvPutFails : AzureEnv where
  getResp := Except.ok sampleMetadata
  putResp := fun _ => Except.error "ConnectionError"

/-- A token response holding a token. -/
def sampleTokenOk : List (String × String) := [("access_token", "tok")]

/-- A token response holding a provider error. -/
def sampleTokenErr : List (String × String) :=
  [("error", "invalid_client"), ("error_description", "bad secret")]

/-- A fully successful world. -/
def sampleEnv : Env := ⟨sampleTokenOk, sampleFetchEnv, sampleAzureEnv⟩

/-- Does the string parse as an IPv4 network? -/
def parsesAsV4 (n : String) : Bool :=
  match ip_network n with
  | some net => isIPv4Network net
  | none => false

/-- Does the string parse as an IPv6 network? -/
def parsesAsV6 (n : String) : Bool :=
  match ip_network n with
  | some net => isIPv6Network net
  | none => false

/-- A fetch world whose first GET raises. -/
def fetchEnvNetFail : FetchEnv where
  pageGet := Except.error "ConnectionError"
  findAnchor := fun _ => none
  jsonGet := fun _ => Except.error "ConnectionError"
  parseJson := fun _ => Except.error "JSONDecodeError"

/-- A vendor payload section listing only the v4 entry. -/
def sampleSectionNoV6 : Json :=
  Json.obj [("id", Json.str "AzureFrontDoor.Frontend"),
            ("properties", Json.obj [("addressPrefixes", Json.arr [Json.str "1.0.0.0/8"])])]

/-- A successful fetch world whose list has no v6 entry. -/
def sampleFetchEnvNoV6 : FetchEnv where
  pageGet := Except.ok ⟨true, "landing page"⟩
  findAnchor := fun _ =>
    some [("data-bi-id", "downloadretry"), ("href", "https://download.example/ips.json")]
  jsonGet := fun _ => Except.ok ⟨true, "payload"⟩
  parseJson := fun _ => Except.ok (Json.obj [("values", Json.arr [sampleSectionNoV6])])

/-! ### Sanity checks on concrete inputs -/

example : ip_network "10.0.0.0/8" = some (.v4 167772160 8) := by decide
example : ip_network "10.0.0.1/8" = none := by decide
example : ip_network "not-an-ip" = none := by decide
example : ip_network "2001:db8::/32" = some (.v6 ((8193 * 65536 + 3512) * 2 ^ 96) 32) := by decide
example : ip_network "1.2.3.4" = some (.v4 16909060 32) := by decide
example : ip_network "::ffff:1.2.3.4" = some (.v6 (65535 * 2 ^ 32 + 16909060) 128) := by decide
example : ip_network "::" = some (.v6 0 128) := by decide
example : ip_network "1:2:3:4:5:6:7" = none := by decide
example : ip_network "10.0.0.0/33" = none := by decide
example : ip_network "010.0.0.0/8" = none := by decide

example :
    filter_ip_versions ["10.0.0.0/8", "2001:db8::/32", "not-an-ip"] = ([], none) := by
  rfl

example :
    get_frontdoor_ips sampleFetchEnv =
      ([HttpEvent.get downloadPage, HttpEvent.get "https://download.example/ips.json"], [],
       Except.ok ["1.0.0.0/8", "2001:db8::/32"]) := by
  rfl

example :
    (main sampleSettings sampleEnv false).outcome = Outcome.exited 0 := by
  rfl

example :
    (main sampleSettings ⟨sampleTokenOk, sampleFetchEnv, azureEnvGetFails⟩ false).outcome =
      Outcome.raised "ConnectionError" := by
  rfl

example :
    (main sampleSettings ⟨sampleTokenErr, sampleFetchEnv, sampleAzureEnv⟩ false) =
      ⟨[], [], [LogEvent.authFailure "invalid_client" "bad secret"], Outcome.exited 1⟩ := by
  rfl

/-! ### Lemmas about the classifier loop -/

/-- When the loop returns normally, it never logged anything and each
bucket is the accumulator extended by the matching filter of the input. -/
theorem filterLoop_some (nets : List String) : ∀ a4 a6 logs r,
    filterLoop nets a4 a6 = (logs, some r) →
    logs = [] ∧ r = (a4 ++ nets.filter parsesAsV4, a6 ++ nets.filter parsesAsV6) := by
  induction nets with
  | nil =>
      intro a4 a6 logs r h
      simp only [filterLoop, Prod.mk.injEq, Option.some.injEq] at h
      simp [← h.1, ← h.2, List.filter]
  | cons m rest IH =>
      intro a4 a6 logs r h
      simp only [filterLoop] at h
      cases hip : ip_network m with
      | none => rw [hip] at h; simp at h
      | some net =>
          rw [hip] at h
          have h4 : parsesAsV4 m = isIPv4Network net := by simp [parsesAsV4, hip]
          have h6 : parsesAsV6 m = isIPv6Network net := by simp [parsesAsV6, hip]
          cases net with
          | v4 a p =>
              simp only [isIPv4Network, if_true] at h
              obtain ⟨hl, hr⟩ := IH _ _ _ _ h
              refine ⟨hl, ?_⟩
              rw [hr]
              simp [List.filter_cons, h4, h6, isIPv4Network, isIPv6Network]
          | v6 a p =>
              simp only [isIPv4Network, isIPv6Network, Bool.false_eq_true, if_false, if_true] at h
              obtain ⟨hl, hr⟩ := IH _ _ _ _ h
              refine ⟨hl, ?_⟩
              rw [hr]
              simp [List.filter_cons, h4, h6, isIPv4Network, isIPv6Network]

/-- The `else` branch's warning is never in the loop's log output. -/
theorem filterLoop_no_unknown (nets : List String) : ∀ a4 a6 n,
    LogEvent.unknownNetwork n ∉ (filterLoop nets a4 a6).1 := by
  induction nets with
  | nil => intro a4 a6 n; simp [filterLoop]
  | cons m rest IH =>
      intro a4 a6 n
      simp only [filterLoop]
      cases hip : ip_network m with
      | none => simp
      | some net =>
          cases net with
          | v4 a p =>
              simpa only [isIPv4Network, if_true] using IH (a4 ++ [m]) a6 n
          | v6 a p =>
              simpa only [isIPv4Network, isIPv6Network, Bool.false_eq_true, if_false,
                if_true] using IH a4 (a6 ++ [m]) n

/-- When the loop returns normally, every input string parsed. -/
theorem filterLoop_parses (nets : List String) : ∀ a4 a6 logs r,
    filterLoop nets a4 a6 = (logs, some r) → ∀ n ∈ nets, ip_network n ≠ none := by
  induction nets with
  | nil => intro a4 a6 logs r _ n hn; simp at hn
  | cons m rest IH =>
      intro a4 a6 logs r h n hn
      simp only [filterLoop] at h
      cases hip : ip_network m with
      | none => rw [hip] at h; simp at h
      | some net =>
          rw [hip] at h
          rcases List.mem_cons.mp hn with rfl | hn2
          · simp [hip]
          · cases net with
            | v4 a p =>
                exact IH _ _ _ _ (by simpa only [isIPv4Network, if_true] using h) n hn2
            | v6 a p =>
                exact IH _ _ _ _ (by simpa only [isIPv4Network, isIPv6Network,
                  Bool.false_eq_true, if_false, if_true] using h) n hn2

/-- Characterisation of a normal `filter_ip_versions` return. -/
theorem filter_ip_versions_some (nets : List String) (logs : List LogEvent)
    (fv : FilterResult) (h : filter_ip_versions nets = (logs, some fv)) :
    fv.ipv4 = nets.filter parsesAsV4 ∧ fv.ipv6 = nets.filter parsesAsV6 ∧
      logs = [LogEvent.splitSummary fv.ipv4 fv.ipv6] := by
  unfold filter_ip_versions at h
  cases hl : filterLoop nets [] [] with
  | mk ls orr =>
      rw [hl] at h
      cases orr with
      | none => simp at h
      | some pr =>
          obtain ⟨p4, p6⟩ := pr
          obtain ⟨hls, hpr⟩ := filterLoop_some nets [] [] ls (p4, p6) hl
          simp only [Prod.mk.injEq] at hpr
          simp only [Prod.mk.injEq, Option.some.injEq] at h
          obtain ⟨hlogs, hfv⟩ := h
          subst hfv
          simp only [← hlogs, hls, List.nil_append]
          exact ⟨hpr.1, hpr.2, trivial⟩

/-- A normal `filter_ip_versions` return means every entry parsed. -/
theorem filter_ip_versions_parses (nets : List String) (logs : List LogEvent)
    (fv : FilterResult) (h : filter_ip_versions nets = (logs, some fv)) :
    ∀ n ∈ nets, ip_network n ≠ none := by
  unfold filter_ip_versions at h
  cases hl : filterLoop nets [] [] with
  | mk ls orr =>
      rw [hl] at h
      cases orr with
      | none => simp at h
      | some pr => exact filterLoop_parses nets [] [] ls pr hl

/-! ### Claim theorems: classifier -/

/-- C1 (code bug): the spec says classification never raises and drops
`"not-an-ip"` with one warning, but `_filter_ip_versions` calls
`ip_network` outside any `try`, so on the spec's own example the
`ValueError` escapes: the embedded function returns the raised marker
(`none`) with no warning logged, instead of the two buckets plus a
warning. -/
theorem c1_classification_raises_eval :
    filter_ip_versions ["10.0.0.0/8", "2001:db8::/32", "not-an-ip"] = ([], none) ∧
    ip_network "not-an-ip" = none ∧
    ip_network "10.0.0.0/8" = some (PyNetwork.v4 167772160 8) ∧
    ip_network "2001:db8::/32" = some (PyNetwork.v6 ((8193 * 65536 + 3512) * 2 ^ 96) 32) :=
  ⟨rfl, rfl, rfl, rfl⟩

/-- C8: when classification returns, each bucket is exactly the in-order
filter of the input by address family, hence a stable subsequence of the
source list. -/
theorem c8_buckets_stable_subsequences (nets : List String) (logs : List LogEvent)
    (fv : FilterResult) (h : filter_ip_versions nets = (logs, some fv)) :
    fv.ipv4 = nets.filter parsesAsV4 ∧ fv.ipv6 = nets.filter parsesAsV6 ∧
      List.Sublist fv.ipv4 nets ∧ List.Sublist fv.ipv6 nets := by
  obtain ⟨h4, h6, -⟩ := filter_ip_versions_some nets logs fv h
  refine ⟨h4, h6, ?_, ?_⟩
  · rw [h4]; exact List.filter_sublist nets
  · rw [h6]; exact List.filter_sublist nets

/-- Witness for C8 at a concrete three-entry list. -/
theorem c8_buckets_stable_subsequences_witness :
    (FilterResult.mk ["10.0.0.0/8", "192.168.0.0/16"] ["2001:db8::/32"]).ipv4 =
        (["10.0.0.0/8", "2001:db8::/32", "192.168.0.0/16"].filter parsesAsV4) ∧
      (FilterResult.mk ["10.0.0.0/8", "192.168.0.0/16"] ["2001:db8::/32"]).ipv6 =
        (["10.0.0.0/8", "2001:db8::/32", "192.168.0.0/16"].filter parsesAsV6) ∧
      List.Sublist (FilterResult.mk ["10.0.0.0/8", "192.168.0.0/16"] ["2001:db8::/32"]).ipv4
        ["10.0.0.0/8", "2001:db8::/32", "192.168.0.0/16"] ∧
      List.Sublist (FilterResult.mk ["10.0.0.0/8", "192.168.0.0/16"] ["2001:db8::/32"]).ipv6
        ["10.0.0.0/8", "2001:db8::/32", "192.168.0.0/16"] :=
  c8_buckets_stable_subsequences ["10.0.0.0/8", "2001:db8::/32", "192.168.0.0/16"]
    [LogEvent.splitSummary ["10.0.0.0/8", "192.168.0.0/16"] ["2001:db8::/32"]]
    (FilterResult.mk ["10.0.0.0/8", "192.168.0.0/16"] ["2001:db8::/32"]) rfl

/-- C10: the `Unknown Network Detected` branch is unreachable — no run of
the classifier ever emits that warning, and whenever the classifier
returns normally every input entry landed in the v4 or the v6 bucket. -/
theorem c10_unknown_branch_unreachable (nets : List String) :
    (∀ n, LogEvent.unknownNetwork n ∉ (filter_ip_versions nets).1) ∧
    (∀ logs fv, filter_ip_versions nets = (logs, some fv) →
      ∀ n ∈ nets, n ∈ fv.ipv4 ∨ n ∈ fv.ipv6) := by
  constructor
  · intro n
    unfold filter_ip_versions
    cases hl : filterLoop nets [] [] with
    | mk ls orr =>
        have hnu := filterLoop_no_unknown nets [] [] n
        rw [hl] at hnu
        cases orr with
        | none => simpa using hnu
        | some pr =>
            obtain ⟨p4, p6⟩ := pr
            simp only [List.mem_append, List.mem_singleton]
            rintro (hin | hbad)
            · exact hnu hin
            · exact LogEvent.noConfusion hbad
  · intro logs fv h n hn
    have hp := filter_ip_versions_parses nets logs fv h n hn
    obtain ⟨h4, h6, -⟩ := filter_ip_versions_some nets logs fv h
    cases hip : ip_network n with
    | none => exact absurd hip hp
    | some net =>
        cases net with
        | v4 a p =>
            left
            rw [h4]
            exact List.mem_filter.mpr ⟨hn, by simp [parsesAsV4, hip, isIPv4Network]⟩
        | v6 a p =>
            right
            rw [h6]
            exact List.mem_filter.mpr ⟨hn, by simp [parsesAsV6, hip, isIPv6Network]⟩

/-- Witness for C10 at a concrete list. -/
theorem c10_unknown_branch_unreachable_witness :
    (∀ n, LogEvent.unknownNetwork n ∉
      (filter_ip_versions ["10.0.0.0/8", "2001:db8::/32"]).1) ∧
    (∀ logs fv, filter_ip_versions ["10.0.0.0/8", "2001:db8::/32"] = (logs, some fv) →
      ∀ n ∈ ["10.0.0.0/8", "2001:db8::/32"], n ∈ fv.ipv4 ∨ n ∈ fv.ipv6) :=
  c10_unknown_branch_unreachable ["10.0.0.0/8", "2001:db8::/32"]

/-! ### Lemmas about the reconciler -/

/-- The read always happens first: in every branch the first request is
the GET on the resource URL. -/
theorem update_http_head (s : Settings) (env : AzureEnv) (t : String)
    (addrs : List String) (dry : Bool) :
    (update_azure_ip_group s env t addrs dry).http.head? =
      some (HttpEvent.get (resourceUrl s)) := by
  unfold update_azure_ip_group
  cases env.getResp with
  | error e => rfl
  | ok md =>
      try dsimp only
      cases jsonIndex md "properties" with
      | none => rfl
      | some props =>
          try dsimp only
          cases jsonIndex props "ipAddresses" with
          | none => rfl
          | some ea =>
              try dsimp only
              cases jsonIndex md "tags" with
              | none => rfl
              | some tg =>
                  try dsimp only
                  cases jsonIndex md "location" with
                  | none => rfl
                  | some loc =>
                      try dsimp only
                      cases dry with
                      | true => rfl
                      | false =>
                          try dsimp only
                          cases env.putResp (putBody tg loc addrs) with
                          | error e => rfl
                          | ok resp => dsimp only; cases resp.ok <;> rfl

/-- In dry-run mode the request trace is exactly the GET, whatever the
resource state. -/
theorem update_dry_run_http (s : Settings) (env : AzureEnv) (t : String)
    (addrs : List String) :
    (update_azure_ip_group s env t addrs true).http = [HttpEvent.get (resourceUrl s)] := by
  unfold update_azure_ip_group
  cases env.getResp with
  | error e => rfl
  | ok md =>
      try dsimp only
      cases jsonIndex md "properties" with
      | none => rfl
      | some props =>
          try dsimp only
          cases jsonIndex props "ipAddresses" with
          | none => rfl
          | some ea =>
              try dsimp only
              cases jsonIndex md "tags" with
              | none => rfl
              | some tg =>
                  try dsimp only
                  cases jsonIndex md "location" with
                  | none => rfl
                  | some loc => rfl

/-- Reduction of a non-dry-run call on a well-formed GET response. -/
theorem update_nondry_cases (s : Settings) (env : AzureEnv) (t : String)
    (addrs : List String) (md props ea tg loc : Json)
    (hget : env.getResp = Except.ok md)
    (hprops : jsonIndex md "properties" = some props)
    (hea : jsonIndex props "ipAddresses" = some ea)
    (htg : jsonIndex md "tags" = some tg)
    (hloc : jsonIndex md "location" = some loc) :
    update_azure_ip_group s env t addrs false =
      match env.putResp (putBody tg loc addrs) with
      | Except.error e =>
          ⟨[HttpEvent.get (resourceUrl s), HttpEvent.put (resourceUrl s) (putBody tg loc addrs)],
           [LogEvent.pulledMetadata ea tg loc, LogEvent.submitting addrs,
            LogEvent.updateFailure e], Except.ok ()⟩
      | Except.ok resp =>
          if resp.ok then
            ⟨[HttpEvent.get (resourceUrl s), HttpEvent.put (resourceUrl s) (putBody tg loc addrs)],
             [LogEvent.pulledMetadata ea tg loc, LogEvent.submitting addrs,
              LogEvent.updateSuccess], Except.ok ()⟩
          else
            ⟨[HttpEvent.get (resourceUrl s), HttpEvent.put (resourceUrl s) (putBody tg loc addrs)],
             [LogEvent.pulledMetadata ea tg loc, LogEvent.submitting addrs,
              LogEvent.updateFailure "HTTPError"], Except.ok ()⟩ := by
  unfold update_azure_ip_group
  rw [hget]; dsimp only
  rw [hprops]; dsimp only
  rw [hea]; dsimp only
  rw [htg]; dsimp only
  rw [hloc]; dsimp only
  cases env.putResp (putBody tg loc addrs) with
  | error e => rfl
  | ok resp => dsimp only; cases resp.ok <;> rfl

/-- On a well-formed GET response, a non-dry-run call always issues the
GET and then the PUT with the carried-forward body, whatever the PUT
returns. -/
theorem update_nondry_http (s : Settings) (env : AzureEnv) (t : String)
    (addrs : List String) (md props ea tg loc : Json)
    (hget : env.getResp = Except.ok md)
    (hprops : jsonIndex md "properties" = some props)
    (hea : jsonIndex props "ipAddresses" = some ea)
    (htg : jsonIndex md "tags" = some tg)
    (hloc : jsonIndex md "location" = some loc) :
    (update_azure_ip_group s env t addrs false).http =
      [HttpEvent.get (resourceUrl s), HttpEvent.put (resourceUrl s) (putBody tg loc addrs)] := by
  rw [update_nondry_cases s env t addrs md props ea tg loc hget hprops hea htg hloc]
  cases env.putResp (putBody tg loc addrs) with
  | error e => rfl
  | ok resp => dsimp only; cases resp.ok <;> rfl

/-- On a well-formed GET response, a non-dry-run call returns normally,
whatever the PUT returns. -/
theorem update_nondry_outcome (s : Settings) (env : AzureEnv) (t : String)
    (addrs : List String) (md props ea tg loc : Json)
    (hget : env.getResp = Except.ok md)
    (hprops : jsonIndex md "properties" = some props)
    (hea : jsonIndex props "ipAddresses" = some ea)
    (htg : jsonIndex md "tags" = some tg)
    (hloc : jsonIndex md "location" = some loc) :
    (update_azure_ip_group s env t addrs false).outcome = Except.ok () := by
  rw [update_nondry_cases s env t addrs md props ea tg loc hget hprops hea htg hloc]
  cases env.putResp (putBody tg loc addrs) with
  | error e => rfl
  | ok resp => dsimp only; cases resp.ok <;> rfl

/-! ### Claim theorems: reconciler -/

/-- C5: for every address list and resource state, a dry-run call issues
exactly the GET (never a PUT); the first request is always the GET; and a
non-dry-run call on a resource issues the GET and then the PUT, in that
order. -/
theorem c5_dry_run_never_writes (s : Settings) (env : AzureEnv) (t : String)
    (addrs : List String) :
    ((update_azure_ip_group s env t addrs true).http = [HttpEvent.get (resourceUrl s)]) ∧
    (∀ dry : Bool, (update_azure_ip_group s env t addrs dry).http.head? =
        some (HttpEvent.get (resourceUrl s))) ∧
    (∀ md props ea tg loc : Json,
        env.getResp = Except.ok md →
        jsonIndex md "properties" = some props →
        jsonIndex props "ipAddresses" = some ea →
        jsonIndex md "tags" = some tg →
        jsonIndex md "location" = some loc →
        (update_azure_ip_group s env t addrs false).http =
          [HttpEvent.get (resourceUrl s),
           HttpEvent.put (resourceUrl s) (putBody tg loc addrs)]) := by
  refine ⟨update_dry_run_http s env t addrs, update_http_head s env t addrs, ?_⟩
  intro md props ea tg loc hget hprops hea htg hloc
  exact update_nondry_http s env t addrs md props ea tg loc hget hprops hea htg hloc

/-- Witness for C5 on the sample Azure world. -/
theorem c5_dry_run_never_writes_witness :
    ((update_azure_ip_group sampleSettings sampleAzureEnv "tok" ["5.6.7.0/24"] true).http =
        [HttpEvent.get (resourceUrl sampleSettings)]) ∧
    (∀ dry : Bool,
        (update_azure_ip_group sampleSettings sampleAzureEnv "tok" ["5.6.7.0/24"] dry).http.head? =
          some (HttpEvent.get (resourceUrl sampleSettings))) ∧
    (∀ md props ea tg loc : Json,
        sampleAzureEnv.getResp = Except.ok md →
        jsonIndex md "properties" = some props →
        jsonIndex props "ipAddresses" = some ea →
        jsonIndex md "tags" = some tg →
        jsonIndex md "location" = some loc →
        (update_azure_ip_group sampleSettings sampleAzureEnv "tok" ["5.6.7.0/24"] false).http =
          [HttpEvent.get (resourceUrl sampleSettings),
           HttpEvent.put (resourceUrl sampleSettings) (putBody tg loc ["5.6.7.0/24"])]) :=
  c5_dry_run_never_writes sampleSettings sampleAzureEnv "tok" ["5.6.7.0/24"]

/-- C3: the PUT body carries forward exactly the tags and location read
by the GET and replaces only the address list. -/
theorem c3_update_preserves_tags_location (s : Settings) (env : AzureEnv) (t : String)
    (newAddrs : List String) (md props ea tg loc : Json)
    (hget : env.getResp = Except.ok md)
    (hprops : jsonIndex md "properties" = some props)
    (hea : jsonIndex props "ipAddresses" = some ea)
    (htg : jsonIndex md "tags" = some tg)
    (hloc : jsonIndex md "location" = some loc) :
    ∃ body : Json,
      (update_azure_ip_group s env t newAddrs false).http =
        [HttpEvent.get (resourceUrl s), HttpEvent.put (resourceUrl s) body] ∧
      body = Json.obj [("tags", tg), ("location", loc),
        ("properties", Json.obj [("ipAddresses", Json.arr (newAddrs.map Json.str))])] ∧
      jsonIndex body "tags" = some tg ∧
      jsonIndex body "location" = some loc ∧
      jsonIndex body "properties" =
        some (Json.obj [("ipAddresses", Json.arr (newAddrs.map Json.str))]) := by
  refine ⟨putBody tg loc newAddrs,
    update_nondry_http s env t newAddrs md props ea tg loc hget hprops hea htg hloc,
    rfl, ?_, ?_, ?_⟩
  · simp [putBody, jsonIndex, assocGet]
  · simp [putBody, jsonIndex, assocGet]
  · simp [putBody, jsonIndex, assocGet]

/-- Witness for C3 at the spec's concrete metadata example. -/
theorem c3_update_preserves_tags_location_witness :
    ∃ body : Json,
      (update_azure_ip_group sampleSettings sampleAzureEnv "tok" ["5.6.7.0/24"] false).http =
        [HttpEvent.get (resourceUrl sampleSettings),
         HttpEvent.put (resourceUrl sampleSettings) body] ∧
      body = Json.obj [("tags", Json.obj [("env", Json.str "prod")]),
        ("location", Json.str "eastus"),
        ("properties", Json.obj [("ipAddresses", Json.arr [Json.str "5.6.7.0/24"])])] ∧
      jsonIndex body "tags" = some (Json.obj [("env", Json.str "prod")]) ∧
      jsonIndex body "location" = some (Json.str "eastus") ∧
      jsonIndex body "properties" =
        some (Json.obj [("ipAddresses", Json.arr [Json.str "5.6.7.0/24"])]) :=
  c3_update_preserves_tags_location sampleSettings sampleAzureEnv "tok" ["5.6.7.0/24"]
    sampleMetadata (Json.obj [("ipAddresses", Json.arr [Json.str "1.2.3.0/24"])])
    (Json.arr [Json.str "1.2.3.0/24"]) (Json.obj [("env", Json.str "prod")])
    (Json.str "eastus") rfl rfl rfl rfl rfl

/-! ### Lemmas about the orchestrator -/

/-- When the token exchange tears the run down, `main` stops there. -/
theorem main_auth_error (s : Settings) (env : Env) (dry : Bool)
    {logsA : List LogEvent} {o : Outcome}
    (hA : get_auth_token env.tokenResponse = (logsA, Except.error o)) :
    main s env dry = ⟨[], [], logsA, o⟩ := by
  unfold main
  rw [hA]

/-- When auth, fetch and classification succeed and the v4 count clears
the threshold, `main` is the reconciler's result. -/
theorem main_reaches_update (s : Settings) (env : Env) (dry : Bool)
    {logsA : List LogEvent} {t : String} {httpF : List HttpEvent}
    {logsF : List LogEvent} {ips : List String} {logsC : List LogEvent} {fv : FilterResult}
    (hA : get_auth_token env.tokenResponse = (logsA, Except.ok t))
    (hF : get_frontdoor_ips env.fetch = (httpF, logsF, Except.ok ips))
    (hC : filter_ip_versions ips = (logsC, some fv))
    (hv : fv.ipv4.length > s.minimum_acceptable_v4_networks) :
    main s env dry =
      ⟨httpF,
       (update_azure_ip_group s env.azure t fv.ipv4 (if dry then true else false)).http,
       logsA ++ logsF ++ logsC ++
         (update_azure_ip_group s env.azure t fv.ipv4 (if dry then true else false)).logs,
       match (update_azure_ip_group s env.azure t fv.ipv4 (if dry then true else false)).outcome with
       | Except.ok _ => Outcome.exited 0
       | Except.error o => o⟩ := by
  unfold main
  rw [hA]; dsimp only
  rw [hF]; dsimp only
  rw [hC]; dsimp only
  rw [if_pos hv]

/-- When the v4 count does not clear the threshold, `main` warns and
exits 1 without touching the resource. -/
theorem main_below_threshold (s : Settings) (env : Env) (dry : Bool)
    {logsA : List LogEvent} {t : String} {httpF : List HttpEvent}
    {logsF : List LogEvent} {ips : List String} {logsC : List LogEvent} {fv : FilterResult}
    (hA : get_auth_token env.tokenResponse = (logsA, Except.ok t))
    (hF : get_frontdoor_ips env.fetch = (httpF, logsF, Except.ok ips))
    (hC : filter_ip_versions ips = (logsC, some fv))
    (hv : ¬ fv.ipv4.length > s.minimum_acceptable_v4_networks) :
    main s env dry =
      ⟨httpF, [],
       logsA ++ logsF ++ logsC ++
         [LogEvent.belowThreshold s.minimum_acceptable_v4_networks],
       Outcome.exited 1⟩ := by
  unfold main
  rw [hA]; dsimp only
  rw [hF]; dsimp only
  rw [hC]; dsimp only
  rw [if_neg hv]

/-! ### Claim theorems: error handling of the reconciler and orchestrator -/

/-- C2 (counterexample): with a failing GET on the resource, the
reconciler does not absorb the failure — the exception propagates and the
process terminates with exit status 1, not 0. -/
theorem c2_read_failure_not_absorbed_cx :
    (update_azure_ip_group sampleSettings azureEnvGetFails "tok" ["5.6.7.0/24"] false).outcome =
      Except.error (Outcome.raised "ConnectionError") ∧
    (main sampleSettings ⟨sampleTokenOk, sampleFetchEnv, azureEnvGetFails⟩ false).outcome =
      Outcome.raised "ConnectionError" ∧
    Outcome.processExitCode
      (main sampleSettings ⟨sampleTokenOk, sampleFetchEnv, azureEnvGetFails⟩ false).outcome = 1 :=
  ⟨rfl, rfl, rfl⟩

/-- C2 (amended): only a failure of the PUT write is absorbed — it is
logged and the run still exits 0; a failure of the GET read propagates as
an uncaught exception and the run terminates with a non-zero status. -/
theorem c2_write_failure_absorbed_read_propagates :
    (∀ (s : Settings) (az : AzureEnv) (t : String) (addrs : List String)
        (md props ea tg loc : Json) (e : String),
        az.getResp = Except.ok md →
        jsonIndex md "properties" = some props →
        jsonIndex props "ipAddresses" = some ea →
        jsonIndex md "tags" = some tg →
        jsonIndex md "location" = some loc →
        az.putResp (putBody tg loc addrs) = Except.error e →
        (update_azure_ip_group s az t addrs false).outcome = Except.ok () ∧
          LogEvent.updateFailure e ∈ (update_azure_ip_group s az t addrs false).logs) ∧
    (∀ (s : Settings) (az : AzureEnv) (t : String) (addrs : List String)
        (md props ea tg loc : Json) (resp : HttpResponse),
        az.getResp = Except.ok md →
        jsonIndex md "properties" = some props →
        jsonIndex props "ipAddresses" = some ea →
        jsonIndex md "tags" = some tg →
        jsonIndex md "location" = some loc →
        az.putResp (putBody tg loc addrs) = Except.ok resp →
        resp.ok = false →
        (update_azure_ip_group s az t addrs false).outcome = Except.ok () ∧
          LogEvent.updateFailure "HTTPError" ∈ (update_azure_ip_group s az t addrs false).logs) ∧
    (∀ (s : Settings) (az : AzureEnv) (t : String) (addrs : List String) (e : String),
        az.getResp = Except.error e →
        (update_azure_ip_group s az t addrs false).outcome =
          Except.error (Outcome.raised e)) ∧
    (∀ (s : Settings) (env : Env)
        {logsA : List LogEvent} {t : String} {httpF : List HttpEvent}
        {logsF : List LogEvent} {ips : List String} {logsC : List LogEvent}
        {fv : FilterResult} {md props ea tg loc : Json} {e : String},
        get_auth_token env.tokenResponse = (logsA, Except.ok t) →
        get_frontdoor_ips env.fetch = (httpF, logsF, Except.ok ips) →
        filter_ip_versions ips = (logsC, some fv) →
        fv.ipv4.length > s.minimum_acceptable_v4_networks →
        env.azure.getResp = Except.ok md →
        jsonIndex md "properties" = some props →
        jsonIndex props "ipAddresses" = some ea →
        jsonIndex md "tags" = some tg →
        jsonIndex md "location" = some loc →
        env.azure.putResp (putBody tg loc fv.ipv4) = Except.error e →
        (main s env false).outcome = Outcome.exited 0) := by
  refine ⟨?_, ?_, ?_, ?_⟩
  · intro s az t addrs md props ea tg loc e hget hprops hea htg hloc hput
    rw [update_nondry_cases s az t addrs md props ea tg loc hget hprops hea htg hloc, hput]
    exact ⟨rfl, by simp⟩
  · intro s az t addrs md props ea tg loc resp hget hprops hea htg hloc hput hok
    rw [update_nondry_cases s az t addrs md props ea tg loc hget hprops hea htg hloc, hput]
    dsimp only
    rw [hok]
    exact ⟨rfl, by simp⟩
  · intro s az t addrs e hget
    unfold update_azure_ip_group
    rw [hget]
  · intro s env logsA t httpF logsF ips logsC fv md props ea tg loc e hA hF hC hv
      hget hprops hea htg hloc hput
    rw [main_reaches_update s env false hA hF hC hv]
    rw [show (if false = true then true else false) = false from rfl]
    rw [update_nondry_outcome s env.azure t fv.ipv4 md props ea tg loc hget hprops hea htg hloc]

/-- Witness for the amended C2: a concrete failing PUT is absorbed with
exit 0, a concrete failing GET propagates. -/
theorem c2_write_failure_absorbed_read_propagates_witness :
    ((update_azure_ip_group sampleSettings azureEnvPutFails "tok" ["5.6.7.0/24"] false).outcome =
        Except.ok () ∧
      LogEvent.updateFailure "ConnectionError" ∈
        (update_azure_ip_group sampleSettings azureEnvPutFails "tok" ["5.6.7.0/24"] false).logs) ∧
    ((update_azure_ip_group sampleSettings azureEnvGetFails "tok" ["5.6.7.0/24"] false).outcome =
        Except.error (Outcome.raised "ConnectionError")) ∧
    (main sampleSettings ⟨sampleTokenOk, sampleFetchEnv, azureEnvPutFails⟩ false).outcome =
      Outcome.exited 0 :=
  ⟨c2_write_failure_absorbed_read_propagates.1 sampleSettings azureEnvPutFails "tok"
      ["5.6.7.0/24"] sampleMetadata (Json.obj [("ipAddresses", Json.arr [Json.str "1.2.3.0/24"])])
      (Json.arr [Json.str "1.2.3.0/24"]) (Json.obj [("env", Json.str "prod")])
      (Json.str "eastus") "ConnectionError" rfl rfl rfl rfl rfl rfl,
   c2_write_failure_absorbed_read_propagates.2.2.1 sampleSettings azureEnvGetFails "tok"
      ["5.6.7.0/24"] "ConnectionError" rfl,
   c2_write_failure_absorbed_read_propagates.2.2.2 sampleSettings
      ⟨sampleTokenOk, sampleFetchEnv, azureEnvPutFails⟩ rfl rfl rfl (by decide)
      rfl rfl rfl rfl rfl rfl⟩

/-- C4: at or below the threshold the run warns (naming the threshold)
and exits 1 without any request to the resource; strictly above it, the
reconciler is invoked, starting with the GET. -/
theorem c4_threshold_gate (s : Settings) (env : Env) (dry : Bool)
    {logsA : List LogEvent} {t : String} {httpF : List HttpEvent}
    {logsF : List LogEvent} {ips : List String} {logsC : List LogEvent} {fv : FilterResult}
    (hA : get_auth_token env.tokenResponse = (logsA, Except.ok t))
    (hF : get_frontdoor_ips env.fetch = (httpF, logsF, Except.ok ips))
    (hC : filter_ip_versions ips = (logsC, some fv)) :
    (fv.ipv4.length ≤ s.minimum_acceptable_v4_networks →
      (main s env dry).azureHttp = [] ∧
      (main s env dry).outcome = Outcome.exited 1 ∧
      LogEvent.belowThreshold s.minimum_acceptable_v4_networks ∈ (main s env dry).logs) ∧
    (fv.ipv4.length > s.minimum_acceptable_v4_networks →
      (main s env dry).azureHttp =
        (update_azure_ip_group s env.azure t fv.ipv4 (if dry then true else false)).http ∧
      (main s env dry).azureHttp.head? = some (HttpEvent.get (resourceUrl s))) := by
  constructor
  · intro hle
    rw [main_below_threshold s env dry hA hF hC (Nat.not_lt.mpr hle)]
    exact ⟨rfl, rfl, by simp⟩
  · intro hv
    rw [main_reaches_update s env dry hA hF hC hv]
    exact ⟨rfl, update_http_head s env.azure t fv.ipv4 (if dry then true else false)⟩

/-- Witness for C4: threshold 5 blocks a 1-element v4 bucket, threshold 0
lets it through to the reconciler. -/
theorem c4_threshold_gate_witness :
    ((main strictSettings sampleEnv false).azureHttp = [] ∧
      (main strictSettings sampleEnv false).outcome = Outcome.exited 1 ∧
      LogEvent.belowThreshold strictSettings.minimum_acceptable_v4_networks ∈
        (main strictSettings sampleEnv false).logs) ∧
    ((main sampleSettings sampleEnv false).azureHttp =
        (update_azure_ip_group sampleSettings sampleEnv.azure "tok"
          (FilterResult.mk ["1.0.0.0/8"] ["2001:db8::/32"]).ipv4
          (if false then true else false)).http ∧
      (main sampleSettings sampleEnv false).azureHttp.head? =
        some (HttpEvent.get (resourceUrl sampleSettings))) :=
  ⟨(c4_threshold_gate strictSettings sampleEnv false rfl rfl rfl).1 (by decide),
   (c4_threshold_gate sampleSettings sampleEnv false rfl rfl rfl).2 (by decide)⟩

/-- C6: a token response carrying `error`/`error_description` instead of
`access_token` makes the run log both fields and stop at exit 1 with no
fetch and no resource request; a response carrying `access_token` yields
that token. -/
theorem c6_auth_failure_terminal (s : Settings) (env : Env) (dry : Bool) (e d : String)
    (hNo : assocGet env.tokenResponse "access_token" = none)
    (hErr : assocGet env.tokenResponse "error" = some e)
    (hDesc : assocGet env.tokenResponse "error_description" = some d) :
    main s env dry = ⟨[], [], [LogEvent.authFailure e d], Outcome.exited 1⟩ ∧
    (∀ (tr : List (String × String)) (tok : String),
        assocGet tr "access_token" = some tok →
        get_auth_token tr = ([], Except.ok tok)) := by
  constructor
  · have hA : get_auth_token env.tokenResponse =
        ([LogEvent.authFailure e d], Except.error (Outcome.exited 1)) := by
      unfold get_auth_token
      rw [hNo]; dsimp only
      rw [hErr]; dsimp only
      rw [hDesc]
    exact main_auth_error s env dry hA
  · intro tr tok h
    unfold get_auth_token
    rw [h]

/-- Witness for C6 on the spec's `invalid_client` example. -/
theorem c6_auth_failure_terminal_witness :
    main sampleSettings ⟨sampleTokenErr, sampleFetchEnv, sampleAzureEnv⟩ false =
      ⟨[], [], [LogEvent.authFailure "invalid_client" "bad secret"], Outcome.exited 1⟩ ∧
    get_auth_token sampleTokenOk = ([], Except.ok "tok") :=
  ⟨(c6_auth_failure_terminal sampleSettings ⟨sampleTokenErr, sampleFetchEnv, sampleAzureEnv⟩
      false "invalid_client" "bad secret" rfl rfl rfl).1,
   (c6_auth_failure_terminal sampleSettings ⟨sampleTokenErr, sampleFetchEnv, sampleAzureEnv⟩
      false "invalid_client" "bad secret" rfl rfl rfl).2 sampleTokenOk "tok" rfl⟩

/-! ### Lemmas about the fetcher's section search -/

/-- If every listed section is a dict whose id is present and different
from the fixed constant, the generator is exhausted. -/
theorem findSection_not_found : ∀ sections : List Json,
    (∀ j ∈ sections, ∃ fields v, j = Json.obj fields ∧
      assocGet fields "id" = some v ∧ jsonEqStr v frontdoorSectionId = false) →
    findSection sections = Except.error "StopIteration" := by
  intro sections
  induction sections with
  | nil => intro _; rfl
  | cons j rest IH =>
      intro h
      obtain ⟨fields, v, hj, hid, hne⟩ := h j (List.mem_cons_self j rest)
      subst hj
      unfold findSection
      dsimp only
      rw [hid]
      dsimp only
      simp only [hne, Bool.false_eq_true, if_false]
      exact IH fun j2 hj2 => h j2 (List.mem_cons_of_mem _ hj2)

/-- Whatever section the search returns is a dict whose id is the fixed
constant. -/
theorem findSection_found : ∀ (sections : List Json) (fd : Json),
    findSection sections = Except.ok fd →
    ∃ fields, fd = Json.obj fields ∧ ∃ v,
      assocGet fields "id" = some v ∧ jsonEqStr v frontdoorSectionId = true := by
  intro sections
  induction sections with
  | nil => intro fd h; simp [findSection] at h
  | cons j rest IH =>
      intro fd h
      unfold findSection at h
      cases j with
      | obj fields =>
          dsimp only at h
          cases hid : assocGet fields "id" with
          | none => rw [hid] at h; simp at h
          | some v =>
              rw [hid] at h
              dsimp only at h
              cases hveq : jsonEqStr v frontdoorSectionId with
              | true =>
                  rw [hveq] at h
                  simp only [if_true, Except.ok.injEq] at h
                  exact ⟨fields, h.symm, v, hid, hveq⟩
              | false =>
                  rw [hveq] at h
                  simp only [Bool.false_eq_true, if_false] at h
                  exact IH fd h
      | null => simp at h
      | bool b => simp at h
      | num n => simp at h
      | str s2 => simp at h
      | arr xs => simp at h

/-! ### Claim theorems: fetcher and non-interference -/

/-- C7: every failure inside the fetch chain — a network error on either
GET, a failing status, a missing anchor, malformed JSON, a missing
section — is caught as one class, logged with the originating exception,
and ends the run with exit 1; on success the fetcher returns the complete
prefix list of the section carrying the fixed id, with no partial
result. -/
theorem c7_fetch_failures_terminal :
    (∀ (env : FetchEnv) (e : String),
        (getFrontdoorIpsTry env).2 = Except.error e →
        get_frontdoor_ips env =
          ((getFrontdoorIpsTry env).1, [LogEvent.fetchFailure e],
           Except.error (Outcome.exited 1))) ∧
    (∀ (env : FetchEnv) (m : String),
        env.pageGet = Except.error m → (getFrontdoorIpsTry env).2 = Except.error m) ∧
    (∀ (env : FetchEnv) (r : HttpResponse),
        env.pageGet = Except.ok r → r.ok = true → env.findAnchor r.content = none →
        (getFrontdoorIpsTry env).2 = Except.error "AttributeError") ∧
    (∀ (env : FetchEnv) (r fr : HttpResponse) (anchorAttrs : List (String × String))
        (jf m : String),
        env.pageGet = Except.ok r → r.ok = true →
        env.findAnchor r.content = some anchorAttrs →
        assocGet anchorAttrs "href" = some jf →
        env.jsonGet jf = Except.ok fr → env.parseJson fr.content = Except.error m →
        (getFrontdoorIpsTry env).2 = Except.error m) ∧
    (∀ sections : List Json,
        (∀ j ∈ sections, ∃ fields v, j = Json.obj fields ∧
          assocGet fields "id" = some v ∧ jsonEqStr v frontdoorSectionId = false) →
        findSection sections = Except.error "StopIteration") ∧
    (∀ (sections : List Json) (fd : Json),
        findSection sections = Except.ok fd →
        ∃ fields, fd = Json.obj fields ∧ ∃ v,
          assocGet fields "id" = some v ∧ jsonEqStr v frontdoorSectionId = true) ∧
    (∀ (env : FetchEnv) (fd props ap : Json) (l : List String),
        (getFrontdoorIpsTry env).2 = Except.ok fd →
        jsonIndex fd "properties" = some props →
        jsonIndex props "addressPrefixes" = some ap →
        asStringList ap = some l →
        get_frontdoor_ips env = ((getFrontdoorIpsTry env).1, [], Except.ok l)) := by
  refine ⟨?_, ?_, ?_, ?_, findSection_not_found, findSection_found, ?_⟩
  · intro env e h
    unfold get_frontdoor_ips
    rcases ht : getFrontdoorIpsTry env with ⟨events, res⟩
    rw [ht] at h
    dsimp only at h
    subst h
    rfl
  · intro env m h
    unfold getFrontdoorIpsTry
    rw [h]
  · intro env r hpg hok hfind
    unfold getFrontdoorIpsTry
    rw [hpg]
    dsimp only
    simp only [hok, Bool.not_true, Bool.false_eq_true, if_false, hfind]
  · intro env r fr anchorAttrs jf m hpg hok hfind hhref hjget hparse
    unfold getFrontdoorIpsTry
    rw [hpg]
    dsimp only
    simp only [hok, Bool.not_true, Bool.false_eq_true, if_false, hfind, hhref, hjget, hparse]
  · intro env fd props ap l h hp hap hsl
    unfold get_frontdoor_ips
    rcases ht : getFrontdoorIpsTry env with ⟨events, res⟩
    rw [ht] at h
    dsimp only at h
    subst h
    dsimp only
    rw [hp]
    dsimp only
    rw [hap]
    dsimp only
    rw [hsl]

/-- Witness for C7: a concrete network failure is logged and exits 1, a
concrete mismatching section list exhausts the generator, the matched
section carries the fixed id, and a concrete successful chain returns the
whole list. -/
theorem c7_fetch_failures_terminal_witness :
    get_frontdoor_ips fetchEnvNetFail =
      ([HttpEvent.get downloadPage], [LogEvent.fetchFailure "ConnectionError"],
       Except.error (Outcome.exited 1)) ∧
    findSection [Json.obj [("id", Json.str "other")]] = Except.error "StopIteration" ∧
    (∃ fields, sampleSection = Json.obj fields ∧ ∃ v,
      assocGet fields "id" = some v ∧ jsonEqStr v frontdoorSectionId = true) ∧
    get_frontdoor_ips sampleFetchEnv =
      ([HttpEvent.get downloadPage, HttpEvent.get "https://download.example/ips.json"], [],
       Except.ok ["1.0.0.0/8", "2001:db8::/32"]) :=
  ⟨c7_fetch_failures_terminal.1 fetchEnvNetFail "ConnectionError" rfl,
   c7_fetch_failures_terminal.2.2.2.2.1 [Json.obj [("id", Json.str "other")]]
     (by
        intro j hj
        rw [List.mem_singleton] at hj
        subst hj
        exact ⟨[("id", Json.str "other")], Json.str "other", rfl, rfl, rfl⟩),
   c7_fetch_failures_terminal.2.2.2.2.2.1 [sampleSection] sampleSection rfl,
   c7_fetch_failures_terminal.2.2.2.2.2.2 sampleFetchEnv sampleSection
     (Json.obj [("addressPrefixes", Json.arr [Json.str "1.0.0.0/8", Json.str "2001:db8::/32"])])
     (Json.arr [Json.str "1.0.0.0/8", Json.str "2001:db8::/32"])
     ["1.0.0.0/8", "2001:db8::/32"] rfl rfl rfl rfl⟩

/-- C9: for two runs sharing everything but the fetched list, equal v4
buckets give the same validation decision, the same requests against the
resource (hence the same submitted address list), and the same terminal
outcome — the v6 bucket never influences the result. -/
theorem c9_v6_bucket_noninterference (s : Settings) (tok : List (String × String))
    (f1 f2 : FetchEnv) (az : AzureEnv) (dry : Bool)
    {httpF1 httpF2 : List HttpEvent} {logsF1 logsF2 : List LogEvent}
    {ips1 ips2 : List String} {logsC1 logsC2 : List LogEvent} {fv1 fv2 : FilterResult}
    (hF1 : get_frontdoor_ips f1 = (httpF1, logsF1, Except.ok ips1))
    (hF2 : get_frontdoor_ips f2 = (httpF2, logsF2, Except.ok ips2))
    (hC1 : filter_ip_versions ips1 = (logsC1, some fv1))
    (hC2 : filter_ip_versions ips2 = (logsC2, some fv2))
    (heq : fv1.ipv4 = fv2.ipv4) :
    (main s ⟨tok, f1, az⟩ dry).azureHttp = (main s ⟨tok, f2, az⟩ dry).azureHttp ∧
    (main s ⟨tok, f1, az⟩ dry).outcome = (main s ⟨tok, f2, az⟩ dry).outcome ∧
    ((fv1.ipv4.length > s.minimum_acceptable_v4_networks) ↔
      (fv2.ipv4.length > s.minimum_acceptable_v4_networks)) := by
  have hlen : fv1.ipv4.length = fv2.ipv4.length := by rw [heq]
  rcases hA : get_auth_token tok with ⟨logsA, res⟩
  cases res with
  | error o =>
      rw [main_auth_error s ⟨tok, f1, az⟩ dry hA, main_auth_error s ⟨tok, f2, az⟩ dry hA]
      exact ⟨rfl, rfl, by rw [hlen]⟩
  | ok t =>
      by_cases hv : fv1.ipv4.length > s.minimum_acceptable_v4_networks
      · have hv2 : fv2.ipv4.length > s.minimum_acceptable_v4_networks := hlen ▸ hv
        rw [main_reaches_update s ⟨tok, f1, az⟩ dry hA hF1 hC1 hv,
            main_reaches_update s ⟨tok, f2, az⟩ dry hA hF2 hC2 hv2]
        refine ⟨?_, ?_, by rw [hlen]⟩
        · dsimp only; rw [heq]
        · dsimp only; rw [heq]
      · have hv2 : ¬ fv2.ipv4.length > s.minimum_acceptable_v4_networks := by
          rw [← hlen]; exact hv
        rw [main_below_threshold s ⟨tok, f1, az⟩ dry hA hF1 hC1 hv,
            main_below_threshold s ⟨tok, f2, az⟩ dry hA hF2 hC2 hv2]
        exact ⟨rfl, rfl, by rw [hlen]⟩

/-- Witness for C9: dropping the v6 entry from the fetched list changes
neither the resource requests nor the outcome. -/
theorem c9_v6_bucket_noninterference_witness :
    (main sampleSettings ⟨sampleTokenOk, sampleFetchEnv, sampleAzureEnv⟩ false).azureHttp =
      (main sampleSettings ⟨sampleTokenOk, sampleFetchEnvNoV6, sampleAzureEnv⟩ false).azureHttp ∧
    (main sampleSettings ⟨sampleTokenOk, sampleFetchEnv, sampleAzureEnv⟩ false).outcome =
      (main sampleSettings ⟨sampleTokenOk, sampleFetchEnvNoV6, sampleAzureEnv⟩ false).outcome ∧
    ((FilterResult.mk ["1.0.0.0/8"] ["2001:db8::/32"]).ipv4.length >
        sampleSettings.minimum_acceptable_v4_networks ↔
      (FilterResult.mk ["1.0.0.0/8"] []).ipv4.length >
        sampleSettings.minimum_acceptable_v4_networks) :=
  c9_v6_bucket_noninterference sampleSettings sampleTokenOk sampleFetchEnv sampleFetchEnvNoV6
    sampleAzureEnv false rfl rfl rfl rfl rfl

end FrontdoorUpdater
